import Mathlib

/-!
Verification of the MindMate decision-support engine.

The repository ships the Next.js frontend (page.jsx, FeedbackPanel,
PreferencesModal, ExplanationPanel, lib/api.js); the FastAPI backend
(memory, preferences, contradiction, feedback, orchestration) is described
by the specification.  Frontend handlers are embedded from the JSX source;
backend operations are modelled from the specification text and are marked
as such in their doc comments.

Numeric model: JavaScript/Python floats are embedded as exact rationals
(for weight arithmetic) and as real numbers (for the exponential decay),
so "sums to 1 within floating tolerance" becomes exact equality.
-/

namespace MindMate

/-- The five fixed perspective keys of the orchestrator
(`agentConfig` in page.jsx; spec section 4.5). -/
inductive Perspective where
  | ethical
  | risk
  | eq
  | values
  | red_team
deriving DecidableEq, Repr

/-- The fixed dispatch order of the five perspectives. -/
def perspectives : List Perspective :=
  [.ethical, .risk, .eq, .values, .red_team]

/-- Error taxonomy of the exposed operations (spec section 7). -/
inductive EngineError where
  | validation
  | upstream
  | timeout
deriving DecidableEq, Repr

/-- Modelled from the spec: the sum of the weights of the perspectives
whose generation call succeeded (`ok p = true`), the denominator of the
renormalization step of AgentOrchestrator.dispatch (spec section 4.5;
the orchestrator module is not among the shipped sources). -/
def survivingSum (w : Perspective → ℚ) (ok : Perspective → Bool) : ℚ :=
  ((perspectives.filter ok).map w).sum

/-- Modelled from the spec: renormalize the weight vector over only the
successful perspectives — divide each surviving weight by the sum of
surviving weights; failed perspectives keep no weight (spec section 4.5). -/
def renormalize (w : Perspective → ℚ) (ok : Perspective → Bool) :
    Perspective → ℚ :=
  fun p => if ok p then w p / survivingSum w ok else 0

/-- Modelled from the spec: the collection step of
AgentOrchestrator.dispatch.  If all five perspective calls failed the whole
decision request fails with UpstreamError; otherwise the renormalized
weight vector is handed to synthesis (spec sections 4.5 and 7). -/
def dispatch (w : Perspective → ℚ) (ok : Perspective → Bool) :
    Except EngineError (Perspective → ℚ) :=
  if perspectives.all (fun p => !(ok p)) then
    Except.error EngineError.upstream
  else
    Except.ok (renormalize w ok)

/-- Total renormalized weight over the surviving perspectives, the
quantity the synthesis step receives. -/
def renormalizedTotal (w : Perspective → ℚ) (ok : Perspective → Bool) : ℚ :=
  ((perspectives.filter ok).map (renormalize w ok)).sum

/-- Modelled from the spec: confidence of a MemoryItem read at time `t`,
lazily recomputed from the stored base confidence, decay rate and last
reinforcement time: `confidence_0 * exp (-decayRate * (t - lastReinforcedAt))`,
floored at 0 (spec section 4.1; memory.py is not among the shipped
sources). -/
noncomputable def decayedConfidence (c0 rate t0 t : ℝ) : ℝ :=
  max 0 (c0 * Real.exp (-(rate * (t - t0))))

/-- The four selectable tones (TONES / TONE_OPTIONS in the frontend,
PreferenceRecord.tonePreference in the spec). -/
inductive Tone where
  | clean
  | casual
  | blunt
  | blunt_profane
deriving DecidableEq, Repr

/-- Verdict of ContradictionDetector.check (spec section 4.2). -/
structure Verdict where
  conflict : Bool
  message : String
deriving DecidableEq, Repr

/-- Stored per-user preference state (spec section 3): the single active
tone plus the append-only history of prior values with timestamps. -/
structure PreferenceRecord where
  tonePreference : Tone
  history : List (Tone × ℕ)
deriving DecidableEq, Repr

/-- Outcome reported by PreferenceStore.set. -/
inductive SetOutcome where
  | committed
  | conflictReported (message : String)
deriving DecidableEq, Repr

/-- Modelled from the spec: PreferenceStore.set (spec section 4.3;
preferences.py is not among the shipped sources).  The detector verdict is
an input (the detector never mutates state).  Setting the tone that is
already active is a no-op that still returns success, with no history
growth and no conflict (spec sections 4.3 and 8).  Otherwise, if a
conflict is reported and `confirm` is false, the stored record is returned
unchanged with a `{conflict, message}` result; otherwise the old value is
appended to the history and the new tone committed with timestamp `now`
(the accompanying preference-memory upsert is outside this model). -/
def PreferenceStore.set (rec : PreferenceRecord) (verdict : Verdict)
    (newTone : Tone) (confirm : Bool) (now : ℕ) :
    PreferenceRecord × SetOutcome :=
  if newTone = rec.tonePreference then
    (rec, SetOutcome.committed)
  else if verdict.conflict && !confirm then
    (rec, SetOutcome.conflictReported verdict.message)
  else
    ({ tonePreference := newTone,
       history := rec.history ++ [(rec.tonePreference, now)] },
     SetOutcome.committed)

/-- Body of a successful PUT /preferences response as read by the client:
`{conflict, message}` on a contradiction, `conflict = false` otherwise. -/
structure SetResponse where
  conflict : Bool
  message : String
deriving DecidableEq, Repr

/-- Client-side state of PreferencesModal that `saveTone` touches
(part_002: tone, saving, error, showProfanityWarning, saved). -/
structure ModalState where
  tone : Tone
  saving : Bool
  error : Option String
  showProfanityWarning : Bool
  saved : Bool
deriving DecidableEq, Repr

/-- `saveTone` of PreferencesModal (part_002 lines 55-78), given the
response of the PUT /preferences call (`Except.error` models a thrown
request error).  It first sets saving/clears error/clears saved, then on a
conflict response only records the message and returns; on success it
commits the tone locally; `saving` is reset in the `finally` block. -/
def ModalState.saveTone (st : ModalState) (newTone : Tone)
    (resp : Except String SetResponse) : ModalState :=
  match resp with
  | Except.error msg =>
      { st with saving := false, error := some msg, saved := false }
  | Except.ok r =>
      if r.conflict then
        { st with saving := false, error := some r.message, saved := false }
      else
        { st with tone := newTone, saving := false, error := none,
                  saved := true, showProfanityWarning := false }

/-- Tone-selection state of the main page (page.jsx: currentTone,
showProfanityWarning). -/
structure PageToneState where
  currentTone : Tone
  showProfanityWarning : Bool
deriving DecidableEq, Repr

/-- A PUT /preferences request body issued by a tone save. -/
structure SaveRequest where
  tone_preference : Tone
  confirm_contradiction : Bool
deriving DecidableEq, Repr

/-- User events that can drive the tone-selection UI: clicking a tone
option, clicking the warning confirm button, clicking Cancel. -/
inductive ToneEvent where
  | selectTone (t : Tone)
  | confirmWarning
  | cancelWarning
deriving DecidableEq, Repr

/-- `saveTone` of page.jsx (lines 135-149): issues a PUT /preferences with
`confirm_contradiction: true` and on success commits the tone locally and
hides the warning.  The emitted request is returned alongside the
(success-path) state. -/
def pageSaveTone (_s : PageToneState) (newTone : Tone) :
    PageToneState × Option SaveRequest :=
  ({ currentTone := newTone, showProfanityWarning := false },
   some { tone_preference := newTone, confirm_contradiction := true })

/-- `handleToneSelect` of page.jsx (lines 127-133): selecting
blunt_profane while the current tone is different only shows the
confirmation warning and issues no save; every other selection saves. -/
def pageHandleToneSelect (s : PageToneState) (newTone : Tone) :
    PageToneState × Option SaveRequest :=
  if newTone = Tone.blunt_profane ∧ s.currentTone ≠ Tone.blunt_profane then
    ({ s with showProfanityWarning := true }, none)
  else
    pageSaveTone s newTone

/-- One step of the main page's tone UI.  The warning confirm button is
rendered only while `showProfanityWarning` is true
(page.jsx lines 358-386), so confirming without the warning is a no-op;
confirm runs `saveTone('blunt_profane')`, Cancel only hides the warning. -/
def pageStep (s : PageToneState) (e : ToneEvent) :
    PageToneState × Option SaveRequest :=
  match e with
  | ToneEvent.selectTone t => pageHandleToneSelect s t
  | ToneEvent.confirmWarning =>
      if s.showProfanityWarning then pageSaveTone s Tone.blunt_profane
      else (s, none)
  | ToneEvent.cancelWarning =>
      ({ s with showProfanityWarning := false }, none)

/-- `handleToneSelect` of PreferencesModal (part_002 lines 46-53) reduced
to the request it emits: selecting blunt_profane while the current tone is
different shows the warning and emits nothing; otherwise it calls
`saveTone(newTone, false)`. -/
def modalSelectRequest (tone newTone : Tone) : Option SaveRequest :=
  if newTone = Tone.blunt_profane ∧ tone ≠ Tone.blunt_profane then none
  else some { tone_preference := newTone, confirm_contradiction := false }

/-- The request emitted by the modal warning's confirm button
(part_002 line 162): `saveTone('blunt_profane', true)`. -/
def modalConfirmRequest : SaveRequest :=
  { tone_preference := Tone.blunt_profane, confirm_contradiction := true }

/-- Tone-alignment feedback options (TONE_OPTIONS of FeedbackPanel). -/
inductive ToneAlignment where
  | too_soft
  | just_right
  | too_harsh
deriving DecidableEq, Repr

/-- Feedback outcome values. -/
inductive FbOutcome where
  | helped
  | didnt_help
deriving DecidableEq, Repr

/-- JavaScript truthiness of the `usefulness` state (null or a number). -/
def jsTruthyNum (u : Option ℕ) : Bool :=
  match u with
  | none => false
  | some n => n ≠ 0

/-- JavaScript truthiness of the `toneAlignment` state (null or one of
the non-empty option strings, all truthy). -/
def jsTruthyTone (t : Option ToneAlignment) : Bool :=
  match t with
  | none => false
  | some _ => true

/-- Body of the POST /feedback request built by FeedbackPanel. -/
structure FeedbackRequest where
  query : String
  usefulness : Option ℕ
  tone_alignment : Option ToneAlignment
  outcome : Option FbOutcome
deriving DecidableEq, Repr

/-- The outcome field computed by FeedbackPanel.handleSubmit
(part_001 line 40): `usefulness && usefulness >= 6 ? 'helped' :
usefulness ? 'didnt_help' : null`. -/
def outcomeOf (usefulness : Option ℕ) : Option FbOutcome :=
  if jsTruthyNum usefulness ∧ 6 ≤ usefulness.getD 0 then
    some FbOutcome.helped
  else if jsTruthyNum usefulness then
    some FbOutcome.didnt_help
  else
    none

/-- The request FeedbackPanel.handleSubmit issues, if any
(part_001 lines 32-41): `if (!usefulness && !toneAlignment) return`
guards the POST /feedback call. -/
def feedbackSubmitRequest (query : String) (usefulness : Option ℕ)
    (toneAlignment : Option ToneAlignment) : Option FeedbackRequest :=
  if !(jsTruthyNum usefulness) && !(jsTruthyTone toneAlignment) then
    none
  else
    some { query := query, usefulness := usefulness,
           tone_alignment := toneAlignment, outcome := outcomeOf usefulness }

/-- The submit button's disabled condition (part_001 line 121):
`submitting || (!usefulness && !toneAlignment)`. -/
def feedbackSubmitDisabled (submitting : Bool) (usefulness : Option ℕ)
    (toneAlignment : Option ToneAlignment) : Bool :=
  submitting || (!(jsTruthyNum usefulness) && !(jsTruthyTone toneAlignment))

/-- Modelled from the spec: the validation of FeedbackAggregator.record —
reject if both `usefulness` and `toneAlignment` are absent (spec section
4.4; feedback.py is not among the shipped sources). -/
def FeedbackAggregator.validate (usefulness : Option ℕ)
    (toneAlignment : Option ToneAlignment) : Except EngineError Unit :=
  if usefulness = none ∧ toneAlignment = none then
    Except.error EngineError.validation
  else
    Except.ok ()

/-- FeedbackPanel state touched by handleSubmit (part_001). -/
structure PanelState where
  submitted : Bool
  submitting : Bool
  dismissed : Bool
deriving DecidableEq, Repr

/-- Page-level UI state visible around the feedback panel: the displayed
decision result and error live in Home (page.jsx), the panel state in
FeedbackPanel; the panel has no setter for the page fields. -/
structure UiState where
  result : Option String
  pageError : Option String
  panel : PanelState
deriving DecidableEq, Repr

/-- FeedbackPanel.handleSubmit after the POST /feedback call resolves
(part_001 lines 42-49): on success `setSubmitted(true)`; a thrown error is
caught, reported via `console.warn` (returned here as the second
component) and the panel still closes; `setSubmitting(false)` runs in the
`finally` block.  The function is total: no error escapes to the page. -/
def feedbackSubmitFinish (ui : UiState) (postResult : Except String Unit) :
    UiState × Option String :=
  match postResult with
  | Except.ok _ =>
      ({ ui with panel :=
          { ui.panel with submitted := true, submitting := false } }, none)
  | Except.error msg =>
      ({ ui with panel :=
          { ui.panel with submitted := true, submitting := false } },
       some ("Feedback submission failed: " ++ msg))

/-- The five perspective keys as the JSON keys of the weights object
(page.jsx lines 36-42 and 61-67). -/
def agentKeys : List String :=
  ["ethical", "risk", "eq", "values", "red_team"]

/-- The initial weights state of Home (page.jsx lines 61-67): every
perspective key mapped to 0.2. -/
def initWeights : List (String × ℚ) :=
  [("ethical", 1/5), ("risk", 1/5), ("eq", 1/5), ("values", 1/5),
   ("red_team", 1/5)]

/-- `updateWeight` of page.jsx (lines 118-120):
`setWeights(prev => ({...prev, [key]: value}))` — the spread replaces the
value of `key` when present and would append a new entry otherwise. -/
def updateWeight (w : List (String × ℚ)) (key : String) (value : ℚ) :
    List (String × ℚ) :=
  if (w.map Prod.fst).contains key then
    w.map (fun kv => if kv.1 = key then (key, value) else kv)
  else
    w ++ [(key, value)]

/-- JavaScript `String.prototype.trim`: strip leading and trailing
whitespace (page.jsx uses `query.trim()`). -/
def jsTrim (s : String) : String :=
  ⟨((s.data.dropWhile Char.isWhitespace).reverse.dropWhile
      Char.isWhitespace).reverse⟩

/-- Decision-submission state of Home (page.jsx): query, result, error,
loading, weights. -/
structure DecisionPageState where
  query : String
  weights : List (String × ℚ)
  result : Option String
  error : Option String
  loading : Bool
deriving DecidableEq, Repr

/-- A POST /decision request body (page.jsx lines 106-109). -/
structure DecisionRequest where
  query : String
  weights : List (String × ℚ)
deriving DecidableEq, Repr

/-- `handleSubmit` of page.jsx (lines 98-116) up to issuing the request:
`if (!query.trim()) return` leaves the whole state untouched and issues
nothing; otherwise loading is set, error and result cleared, and a
POST /decision carrying the trimmed query and the weights is issued. -/
def decisionHandleSubmit (st : DecisionPageState) :
    DecisionPageState × Option DecisionRequest :=
  if jsTrim st.query = "" then
    (st, none)
  else
    ({ st with loading := true, error := none, result := none },
     some { query := jsTrim st.query, weights := st.weights })

/-- The Run button's disabled condition (page.jsx line 431):
`loading || !query.trim()`. -/
def runDisabled (loading : Bool) (query : String) : Bool :=
  loading || (jsTrim query == "")

/-- Modelled from the spec: input validation of the decision operation —
fails with ValidationError if `query` is empty (spec section 6; the
backend route is not among the shipped sources). -/
def decisionValidate (query : String) : Except EngineError Unit :=
  if query = "" then Except.error EngineError.validation else Except.ok ()

/-- `data.tone_preference || 'clean'`: the tone taken from a GET
/preferences response body, defaulting to clean when the value is missing,
null (both `none`) or the empty string (page.jsx line 93, part_002
line 40). -/
def toneFromResponse (tonePref : Option String) : String :=
  match tonePref with
  | none => "clean"
  | some s => if s = "" then "clean" else s

/-- The main page's currentTone after the mount-time GET /preferences
resolves (page.jsx lines 90-95): success applies
`tone_preference || 'clean'`; a failed request is silently ignored, so the
tone keeps its prior (initial) value. -/
def pageToneAfterFetch (initial : String)
    (resp : Except String (Option String)) : String :=
  match resp with
  | Except.ok data => toneFromResponse data
  | Except.error _ => initial

/-- PreferencesModal's tone and error after the open-time GET /preferences
resolves (part_002 lines 33-44): success applies
`tone_preference || 'clean'`; failure records the error message and leaves
the tone at its prior (initial) value. -/
def modalToneAfterFetch (initial : String)
    (resp : Except String (Option String)) : String × Option String :=
  match resp with
  | Except.ok data => (toneFromResponse data, none)
  | Except.error msg => (initial, some msg)

/-! ## Theorems -/

/-- Dividing each mapped value by `s` divides the mapped sum by `s`. -/
lemma sum_map_div (w : Perspective → ℚ) (s : ℚ) (l : List Perspective) :
    (l.map (fun p => w p / s)).sum = (l.map w).sum / s := by
  induction l with
  | nil => simp
  | cons a l ih => simp [ih, add_div]

/-- On the surviving perspectives, `renormalize` is division by the
surviving sum, so the renormalized total is the surviving sum divided by
itself. -/
lemma renormalizedTotal_eq_div (w : Perspective → ℚ) (ok : Perspective → Bool) :
    renormalizedTotal w ok = survivingSum w ok / survivingSum w ok := by
  rw [renormalizedTotal]
  have hmap : (perspectives.filter ok).map (renormalize w ok)
      = (perspectives.filter ok).map (fun p => w p / survivingSum w ok) := by
    apply List.map_congr_left
    intro p hp
    have hok : ok p = true := (List.mem_filter.mp hp).2
    simp [renormalize, hok]
  rw [hmap, sum_map_div]
  rfl

/-- A positive surviving weight sum means not every perspective failed. -/
lemma not_all_failed_of_pos (w : Perspective → ℚ) (ok : Perspective → Bool)
    (hpos : 0 < survivingSum w ok) :
    perspectives.all (fun p => !(ok p)) = false := by
  by_contra h
  have hall : perspectives.all (fun p => !(ok p)) = true := by
    revert h
    cases perspectives.all (fun p => !(ok p)) <;> simp
  have hfilter : perspectives.filter ok = [] := by
    rw [List.all_eq_true] at hall
    rw [List.filter_eq_nil_iff]
    intro a ha
    have := hall a ha
    simp at this
    simp [this]
  rw [survivingSum, hfilter] at hpos
  simp at hpos

/-- C1 (amended): for every dispatched decision request whose successful
perspectives carry a positive total weight, the request succeeds and the
weight vector renormalized over only the successful perspectives sums to
exactly 1; if all five perspective calls fail, the decision request fails
with UpstreamError.  (The unamended claim fails when a perspective of
weight 0 is the only survivor; see the counterexample.) -/
theorem dispatch_renormalizes_or_upstream
    (w : Perspective → ℚ) (ok : Perspective → Bool) :
    (0 < survivingSum w ok →
      dispatch w ok = Except.ok (renormalize w ok) ∧
      renormalizedTotal w ok = 1) ∧
    ((∀ p, ok p = false) →
      dispatch w ok = Except.error EngineError.upstream) := by
  constructor
  · intro hpos
    constructor
    · rw [dispatch, not_all_failed_of_pos w ok hpos]
      simp
    · rw [renormalizedTotal_eq_div, div_self (ne_of_gt hpos)]
  · intro hfail
    have hall : perspectives.all (fun p => !(ok p)) = true := by
      rw [List.all_eq_true]
      intro p _
      simp [hfail p]
    rw [dispatch, hall]
    simp

/-- Closed instance of `dispatch_renormalizes_or_upstream`: four equal
weights with `red_team` failed renormalize to total 1, and the all-failed
request is an UpstreamError. -/
theorem dispatch_renormalizes_or_upstream_witness :
    (0 < survivingSum (fun _ => 1/5)
        (fun p => match p with | .red_team => false | _ => true) ∧
      renormalizedTotal (fun _ => 1/5)
        (fun p => match p with | .red_team => false | _ => true) = 1) ∧
    ((∀ p : Perspective, (fun _ : Perspective => false) p = false) ∧
      dispatch (fun _ => (1:ℚ)/5) (fun _ : Perspective => false)
        = Except.error EngineError.upstream) := by
  constructor
  · have hpos : 0 < survivingSum (fun _ => 1/5)
        (fun p => match p with | .red_team => false | _ => true) := by
      norm_num [survivingSum, perspectives, List.filter_cons]
    exact ⟨hpos, ((dispatch_renormalizes_or_upstream _ _).1 hpos).2⟩
  · have hfail : ∀ p : Perspective, (fun _ : Perspective => false) p = false :=
      fun _ => rfl
    exact ⟨hfail, (dispatch_renormalizes_or_upstream _ _).2 hfail⟩

/-- Weight vector placing all weight on `ethical`; weights of the other
perspectives are 0 (non-negative, raw sum 1). -/
def cexWeights : Perspective → ℚ :=
  fun p => match p with | .ethical => 1 | _ => 0

/-- Success pattern in which only `risk` — a perspective of weight 0 —
succeeds. -/
def cexOk : Perspective → Bool :=
  fun p => match p with | .risk => true | _ => false

/-- C1 counterexample to the claim as stated: one perspective generation
call succeeds (`risk`), so the request is dispatched successfully, yet the
weights renormalized over the successful perspectives sum to 0, not 1:
the surviving weight sum is 0 and dividing by it cannot restore total 1
(in float arithmetic this division is NaN). -/
theorem dispatch_claim_counterexample :
    cexOk Perspective.risk = true ∧
    (dispatch cexWeights cexOk).isOk = true ∧
    renormalizedTotal cexWeights cexOk = 0 ∧
    ¬ renormalizedTotal cexWeights cexOk = 1 := by
  have htotal : renormalizedTotal cexWeights cexOk = 0 := by
    norm_num [renormalizedTotal, renormalize, survivingSum, perspectives,
      cexWeights, cexOk, List.filter_cons]
  refine ⟨rfl, ?_, htotal, by rw [htotal]; norm_num⟩
  rfl

/-- C2: the confidence of a MemoryItem read at time `t` equals
`confidence_0 * exp (-decayRate * (t - lastReinforcedAt))` floored at 0;
between reinforcements (`lastReinforcedAt = t0 ≤ s ≤ t`) it is
monotonically non-increasing and always lies in [0, 1]. -/
theorem decayedConfidence_monotone_bounded
    (c0 rate t0 s t : ℝ) (hc0 : 0 ≤ c0) (hc1 : c0 ≤ 1) (hrate : 0 < rate)
    (hs : t0 ≤ s) (hst : s ≤ t) :
    decayedConfidence c0 rate t0 t
      = max 0 (c0 * Real.exp (-(rate * (t - t0)))) ∧
    decayedConfidence c0 rate t0 t ≤ decayedConfidence c0 rate t0 s ∧
    0 ≤ decayedConfidence c0 rate t0 t ∧
    decayedConfidence c0 rate t0 t ≤ 1 := by
  refine ⟨rfl, ?_, le_max_left _ _, ?_⟩
  · apply max_le_max le_rfl
    apply mul_le_mul_of_nonneg_left _ hc0
    apply Real.exp_le_exp.mpr
    have h1 : rate * (s - t0) ≤ rate * (t - t0) := by
      apply mul_le_mul_of_nonneg_left _ (le_of_lt hrate)
      linarith
    linarith
  · apply max_le (by norm_num)
    have hexp1 : Real.exp (-(rate * (t - t0))) ≤ 1 := by
      rw [← Real.exp_zero]
      apply Real.exp_le_exp.mpr
      have : 0 ≤ rate * (t - t0) := by
        apply mul_nonneg (le_of_lt hrate)
        linarith
      linarith
    calc c0 * Real.exp (-(rate * (t - t0)))
        ≤ 1 * 1 := by
          apply mul_le_mul hc1 hexp1 (Real.exp_nonneg _) (by norm_num)
      _ = 1 := by norm_num

/-- Closed instance of `decayedConfidence_monotone_bounded` at
`c0 = 1/2`, `rate = 1`, `t0 = 0`, `s = 0`, `t = 1`. -/
theorem decayedConfidence_monotone_bounded_witness :
    (0:ℝ) ≤ 1/2 ∧ (1/2:ℝ) ≤ 1 ∧ (0:ℝ) < 1 ∧ (0:ℝ) ≤ 0 ∧ (0:ℝ) ≤ 1 ∧
    (decayedConfidence (1/2) 1 0 1
        = max 0 ((1/2) * Real.exp (-(1 * ((1:ℝ) - 0)))) ∧
      decayedConfidence (1/2) 1 0 1 ≤ decayedConfidence (1/2) 1 0 0 ∧
      0 ≤ decayedConfidence (1/2) 1 0 1 ∧
      decayedConfidence (1/2) 1 0 1 ≤ 1) :=
  ⟨by norm_num, by norm_num, by norm_num, le_refl 0, by norm_num,
    decayedConfidence_monotone_bounded (1/2) 1 0 0 1
      (by norm_num) (by norm_num) (by norm_num) (le_refl 0) (by norm_num)⟩

/-- C3: a preference change answered with a conflict verdict and no
confirmation mutates no state — the stored PreferenceRecord is returned
unchanged with the `{conflict, message}` result — and re-issuing the same
change with confirmation commits it (appending to history); in the client
modal, `saveTone` receiving a conflict response leaves the selected tone
and the warning state at their prior values and only records the message.
A change that reports a conflict is a real change (`newTone` differs from
the active tone): setting the already-active tone is the idempotent no-op
of spec sections 4.3 and 8, which reports no conflict. -/
theorem conflict_without_confirmation_mutates_nothing
    (rec : PreferenceRecord) (verdict : Verdict) (newTone : Tone) (now : ℕ)
    (st : ModalState) (msg : String)
    (hconf : verdict.conflict = true)
    (hne : newTone ≠ rec.tonePreference) :
    PreferenceStore.set rec verdict newTone false now
      = (rec, SetOutcome.conflictReported verdict.message) ∧
    PreferenceStore.set rec verdict newTone true now
      = ({ tonePreference := newTone,
           history := rec.history ++ [(rec.tonePreference, now)] },
         SetOutcome.committed) ∧
    (st.saveTone newTone (Except.ok ⟨true, msg⟩)).tone = st.tone ∧
    (st.saveTone newTone (Except.ok ⟨true, msg⟩)).error = some msg ∧
    (st.saveTone newTone (Except.ok ⟨true, msg⟩)).showProfanityWarning
      = st.showProfanityWarning := by
  refine ⟨?_, ?_, ?_, ?_, ?_⟩ <;>
    simp [PreferenceStore.set, ModalState.saveTone, hconf, hne]

/-- Closed instance of `conflict_without_confirmation_mutates_nothing`:
a conflicting change from clean to blunt_profane. -/
theorem conflict_without_confirmation_mutates_nothing_witness :
    (Verdict.mk true "conflicts with stored memory").conflict = true ∧
    Tone.blunt_profane ≠ (PreferenceRecord.mk Tone.clean []).tonePreference ∧
    (PreferenceStore.set ⟨Tone.clean, []⟩
        ⟨true, "conflicts with stored memory"⟩ Tone.blunt_profane false 7
      = (⟨Tone.clean, []⟩,
         SetOutcome.conflictReported "conflicts with stored memory") ∧
     PreferenceStore.set ⟨Tone.clean, []⟩
        ⟨true, "conflicts with stored memory"⟩ Tone.blunt_profane true 7
      = ({ tonePreference := Tone.blunt_profane,
           history := [] ++ [(Tone.clean, 7)] }, SetOutcome.committed) ∧
     ((ModalState.mk Tone.clean true none false false).saveTone
        Tone.blunt_profane (Except.ok ⟨true, "msg"⟩)).tone
       = (ModalState.mk Tone.clean true none false false).tone ∧
     ((ModalState.mk Tone.clean true none false false).saveTone
        Tone.blunt_profane (Except.ok ⟨true, "msg"⟩)).error = some "msg" ∧
     ((ModalState.mk Tone.clean true none false false).saveTone
        Tone.blunt_profane
        (Except.ok ⟨true, "msg"⟩)).showProfanityWarning
       = (ModalState.mk Tone.clean true none false false).showProfanityWarning) :=
  ⟨rfl, by decide, conflict_without_confirmation_mutates_nothing
    ⟨Tone.clean, []⟩ ⟨true, "conflicts with stored memory"⟩
    Tone.blunt_profane 7 (ModalState.mk Tone.clean true none false false)
    "msg" rfl (by decide)⟩

/-- C4: a feedback submission in which both the usefulness rating and the
tone-alignment choice are absent is rejected: `handleSubmit` issues no
POST /feedback request, the submit control is disabled, the backend
validation rejects it, and every request actually issued carries at least
one of usefulness/tone_alignment. -/
theorem feedback_requires_rating_or_tone
    (q : String) (u : Option ℕ) (t : Option ToneAlignment)
    (r : FeedbackRequest)
    (hr : feedbackSubmitRequest q u t = some r) :
    (r.usefulness ≠ none ∨ r.tone_alignment ≠ none) ∧
    feedbackSubmitRequest q none none = none ∧
    feedbackSubmitDisabled false none none = true ∧
    FeedbackAggregator.validate none none
      = Except.error EngineError.validation := by
  refine ⟨?_, rfl, rfl, rfl⟩
  rw [feedbackSubmitRequest] at hr
  split at hr
  · exact absurd hr (by simp)
  · next h =>
      injection hr with hr
      subst hr
      cases u with
      | some n => exact Or.inl (by simp)
      | none =>
          cases t with
          | some a => exact Or.inr (by simp)
          | none => exact absurd h (by simp [jsTruthyNum, jsTruthyTone])

/-- Closed instance of `feedback_requires_rating_or_tone` at a submission
carrying only a usefulness rating of 7. -/
theorem feedback_requires_rating_or_tone_witness :
    feedbackSubmitRequest "q" (some 7) none
      = some ⟨"q", some 7, none, some FbOutcome.helped⟩ ∧
    (((⟨"q", some 7, none, some FbOutcome.helped⟩ :
          FeedbackRequest).usefulness ≠ none ∨
      (⟨"q", some 7, none, some FbOutcome.helped⟩ :
          FeedbackRequest).tone_alignment ≠ none) ∧
     feedbackSubmitRequest "q" none none = none ∧
     feedbackSubmitDisabled false none none = true ∧
     FeedbackAggregator.validate none none
       = Except.error EngineError.validation) :=
  ⟨rfl, feedback_requires_rating_or_tone "q" (some 7) none
    ⟨"q", some 7, none, some FbOutcome.helped⟩ rfl⟩

/-- C5: a failure of the POST /feedback call never blocks or fails the
primary decision flow: the caught error leaves the page-level decision
result and error untouched, produces exactly the same UI state as a
successful submission, is reported non-fatally as a console warning, and
the panel stops showing the submitting state. -/
theorem feedback_failure_isolated (ui : UiState) (msg : String) :
    (feedbackSubmitFinish ui (Except.error msg)).1
      = (feedbackSubmitFinish ui (Except.ok ())).1 ∧
    ((feedbackSubmitFinish ui (Except.error msg)).1).result = ui.result ∧
    ((feedbackSubmitFinish ui (Except.error msg)).1).pageError
      = ui.pageError ∧
    (feedbackSubmitFinish ui (Except.error msg)).2
      = some ("Feedback submission failed: " ++ msg) ∧
    ((feedbackSubmitFinish ui (Except.error msg)).1).panel.submitting
      = false := by
  simp [feedbackSubmitFinish]

/-- C6: the blunt_profane tone is never committed without explicit
confirmation.  Selecting blunt_profane while the current tone differs only
shows the warning and issues no save; any save request carrying
blunt_profane from a state not already on blunt_profane can only arise
from the warning's confirm action with the warning visible.  The modal
behaves the same: its selection handler emits nothing for that transition
and only its warning confirm button emits a blunt_profane save. -/
theorem blunt_profane_requires_confirmation
    (s : PageToneState) (e : ToneEvent) (req : SaveRequest) (tone : Tone) :
    (s.currentTone ≠ Tone.blunt_profane →
      pageHandleToneSelect s Tone.blunt_profane
        = ({ s with showProfanityWarning := true }, none)) ∧
    ((pageStep s e).2 = some req →
      req.tone_preference = Tone.blunt_profane →
      s.currentTone ≠ Tone.blunt_profane →
      e = ToneEvent.confirmWarning ∧ s.showProfanityWarning = true) ∧
    (tone ≠ Tone.blunt_profane →
      modalSelectRequest tone Tone.blunt_profane = none) ∧
    modalConfirmRequest.tone_preference = Tone.blunt_profane := by
  refine ⟨?_, ?_, ?_, rfl⟩
  · intro hcur
    rw [pageHandleToneSelect, if_pos ⟨rfl, hcur⟩]
  · intro hemit hbp hcur
    cases e with
    | selectTone t =>
        rw [pageStep, pageHandleToneSelect] at hemit
        by_cases hc : t = Tone.blunt_profane ∧ s.currentTone ≠ Tone.blunt_profane
        · rw [if_pos hc] at hemit
          exact absurd hemit (by simp)
        · rw [if_neg hc] at hemit
          rw [pageSaveTone] at hemit
          injection hemit with hemit
          subst hemit
          simp at hbp
          exact absurd ⟨hbp, hcur⟩ hc
    | confirmWarning =>
        rw [pageStep] at hemit
        by_cases hw : s.showProfanityWarning = true
        · exact ⟨rfl, hw⟩
        · simp only [hw] at hemit
          simp [Bool.not_eq_true] at hw
          rw [if_neg (by simp [hw])] at hemit
          exact absurd hemit (by simp)
    | cancelWarning =>
        rw [pageStep] at hemit
        exact absurd hemit (by simp)
  · intro htone
    rw [modalSelectRequest, if_pos ⟨rfl, htone⟩]

/-- Closed instance of `blunt_profane_requires_confirmation`: current tone
clean, warning visible, confirm event emitting the blunt_profane save. -/
theorem blunt_profane_requires_confirmation_witness :
    (PageToneState.mk Tone.clean true).currentTone ≠ Tone.blunt_profane ∧
    (pageStep ⟨Tone.clean, true⟩ ToneEvent.confirmWarning).2
      = some ⟨Tone.blunt_profane, true⟩ ∧
    (⟨Tone.blunt_profane, true⟩ : SaveRequest).tone_preference
      = Tone.blunt_profane ∧
    Tone.clean ≠ Tone.blunt_profane ∧
    (pageHandleToneSelect ⟨Tone.clean, true⟩ Tone.blunt_profane
      = ({ currentTone := Tone.clean, showProfanityWarning := true }, none) ∧
     (ToneEvent.confirmWarning = ToneEvent.confirmWarning ∧
      (PageToneState.mk Tone.clean true).showProfanityWarning = true) ∧
     modalSelectRequest Tone.clean Tone.blunt_profane = none) := by
  have h := blunt_profane_requires_confirmation
    ⟨Tone.clean, true⟩ ToneEvent.confirmWarning
    ⟨Tone.blunt_profane, true⟩ Tone.clean
  refine ⟨by decide, rfl, rfl, by decide, ?_, ?_, ?_⟩
  · exact h.1 (by decide)
  · exact h.2.1 rfl rfl (by decide)
  · exact h.2.2.1 (by decide)

/-- C7: the weight state is a mapping over exactly the five fixed
perspective keys ethical, risk, eq, values, red_team, initialized to 0.2
each (non-negative); `updateWeight` on an existing key changes only that
key's value — it never adds or removes keys, leaves every other entry
untouched, and preserves non-negativity for a non-negative value. -/
theorem weights_fixed_keys
    (w : List (String × ℚ)) (k : String) (v : ℚ)
    (hk : k ∈ w.map Prod.fst) (hv : 0 ≤ v) :
    initWeights.map Prod.fst = agentKeys ∧
    (∀ kv ∈ initWeights, kv.2 = 1/5 ∧ 0 ≤ kv.2) ∧
    (updateWeight w k v).map Prod.fst = w.map Prod.fst ∧
    (∀ kv ∈ w, kv.1 ≠ k → kv ∈ updateWeight w k v) ∧
    ((∀ kv ∈ w, 0 ≤ kv.2) → ∀ kv ∈ updateWeight w k v, 0 ≤ kv.2) := by
  have hc : (w.map Prod.fst).contains k = true := by simpa using hk
  refine ⟨rfl, ?_, ?_, ?_, ?_⟩
  · intro kv hkv
    simp only [initWeights, List.mem_cons, List.not_mem_nil, or_false]
      at hkv
    rcases hkv with h|h|h|h|h <;> subst h <;> norm_num
  · rw [updateWeight, if_pos hc, List.map_map]
    apply List.map_congr_left
    intro kv _
    by_cases h : kv.1 = k
    · simp [Function.comp, h]
    · simp [Function.comp, h]
  · intro kv hkv hne
    rw [updateWeight, if_pos hc]
    have heq : (fun kv2 : String × ℚ =>
        if kv2.1 = k then (k, v) else kv2) kv = kv := by
      simp [hne]
    exact heq ▸ List.mem_map_of_mem _ hkv
  · intro hall kv hkv
    rw [updateWeight, if_pos hc] at hkv
    rcases List.mem_map.mp hkv with ⟨kv0, h0, heq⟩
    by_cases h : kv0.1 = k
    · rw [if_pos h] at heq
      subst heq
      exact hv
    · rw [if_neg h] at heq
      subst heq
      exact hall kv0 h0

/-- Closed instance of `weights_fixed_keys` updating the existing key
"risk" to 1/2 on the initial weights. -/
theorem weights_fixed_keys_witness :
    "risk" ∈ initWeights.map Prod.fst ∧ (0:ℚ) ≤ 1/2 ∧
    (initWeights.map Prod.fst = agentKeys ∧
     (∀ kv ∈ initWeights, kv.2 = 1/5 ∧ 0 ≤ kv.2) ∧
     (updateWeight initWeights "risk" (1/2)).map Prod.fst
       = initWeights.map Prod.fst ∧
     (∀ kv ∈ initWeights, kv.1 ≠ "risk" →
       kv ∈ updateWeight initWeights "risk" (1/2)) ∧
     ((∀ kv ∈ initWeights, 0 ≤ kv.2) →
       ∀ kv ∈ updateWeight initWeights "risk" (1/2), 0 ≤ kv.2)) := by
  have hk : "risk" ∈ initWeights.map Prod.fst := by
    simp [initWeights]
  have hv : (0:ℚ) ≤ 1/2 := by norm_num
  exact ⟨hk, hv, weights_fixed_keys initWeights "risk" (1/2) hk hv⟩

/-- C8: a decision request with an empty query fails with
ValidationError; in the client, for every query whose trimmed value is
empty, `handleSubmit` returns without issuing a POST /decision and leaves
the whole page state (result and error included) unchanged, and the Run
button is disabled. -/
theorem empty_query_rejected (st : DecisionPageState) (q : String)
    (hst : jsTrim st.query = "") (hq : jsTrim q = "") :
    decisionHandleSubmit st = (st, none) ∧
    runDisabled false q = true ∧
    decisionValidate "" = Except.error EngineError.validation := by
  refine ⟨?_, ?_, rfl⟩
  · rw [decisionHandleSubmit, if_pos hst]
  · rw [runDisabled]
    simp [hq]

/-- Closed instance of `empty_query_rejected` at whitespace-only
queries. -/
theorem empty_query_rejected_witness :
    jsTrim "   " = "" ∧ jsTrim " " = "" ∧
    (decisionHandleSubmit ⟨"   ", initWeights, none, none, false⟩
      = (⟨"   ", initWeights, none, none, false⟩, none) ∧
     runDisabled false " " = true ∧
     decisionValidate "" = Except.error EngineError.validation) := by
  have h1 : jsTrim "   " = "" := by decide
  have h2 : jsTrim " " = "" := by decide
  exact ⟨h1, h2,
    empty_query_rejected ⟨"   ", initWeights, none, none, false⟩ " " h1 h2⟩

/-- C9: in every submitted feedback request, the outcome field is derived
deterministically from the usefulness rating (the request carries
`outcomeOf usefulness`, never an independent choice): for ratings in the
UI range 1..10 it is helped iff the rating is at least 6, didnt_help iff
it is below 6, and null exactly when the rating is unset. -/
theorem outcome_derived_from_usefulness
    (q : String) (t : Option ToneAlignment) (r : FeedbackRequest)
    (u : Option ℕ) (n : ℕ)
    (hn1 : 1 ≤ n) (hn10 : n ≤ 10)
    (hr : feedbackSubmitRequest q u t = some r) :
    r.outcome = outcomeOf u ∧
    outcomeOf none = none ∧
    (outcomeOf (some n) = some FbOutcome.helped ↔ 6 ≤ n) ∧
    (outcomeOf (some n) = some FbOutcome.didnt_help ↔ n < 6) ∧
    outcomeOf (some n) ≠ none := by
  have hn0 : n ≠ 0 := by omega
  refine ⟨?_, rfl, ?_, ?_, ?_⟩
  · rw [feedbackSubmitRequest] at hr
    split at hr
    · exact absurd hr (by simp)
    · injection hr with hr
      subst hr
      rfl
  · by_cases h6 : 6 ≤ n <;> simp [outcomeOf, jsTruthyNum, h6, hn0]
  · by_cases h6 : 6 ≤ n
    · simp [outcomeOf, jsTruthyNum, h6, hn0]
    · simp [outcomeOf, jsTruthyNum, h6, hn0]
      omega
  · by_cases h6 : 6 ≤ n <;> simp [outcomeOf, jsTruthyNum, h6, hn0]

/-- Closed instance of `outcome_derived_from_usefulness` at a rating
of 7. -/
theorem outcome_derived_from_usefulness_witness :
    (1 ≤ 7 ∧ 7 ≤ 10) ∧
    feedbackSubmitRequest "w" (some 7) (some ToneAlignment.just_right)
      = some ⟨"w", some 7, some ToneAlignment.just_right,
              some FbOutcome.helped⟩ ∧
    ((⟨"w", some 7, some ToneAlignment.just_right, some FbOutcome.helped⟩ :
        FeedbackRequest).outcome = outcomeOf (some 7) ∧
     outcomeOf none = none ∧
     (outcomeOf (some 7) = some FbOutcome.helped ↔ 6 ≤ 7) ∧
     (outcomeOf (some 7) = some FbOutcome.didnt_help ↔ 7 < 6) ∧
     outcomeOf (some 7) ≠ none) :=
  ⟨⟨by norm_num, by norm_num⟩, rfl,
    outcome_derived_from_usefulness "w" (some ToneAlignment.just_right) _
      (some 7) 7 (by norm_num) (by norm_num) rfl⟩

/-- C10: whenever the GET /preferences response carries no
tone_preference value (missing, null — both `none` — or the empty string)
or the request fails, the client's active tone defaults to "clean"; the
default is applied identically on the main page and in the preferences
modal (starting from their common initial tone "clean"). -/
theorem tone_defaults_to_clean (msg : String)
    (resp : Except String (Option String)) :
    toneFromResponse none = "clean" ∧
    toneFromResponse (some "") = "clean" ∧
    pageToneAfterFetch "clean" (Except.error msg) = "clean" ∧
    (modalToneAfterFetch "clean" (Except.error msg)).1 = "clean" ∧
    pageToneAfterFetch "clean" resp
      = (modalToneAfterFetch "clean" resp).1 := by
  refine ⟨rfl, by simp [toneFromResponse], rfl, rfl, ?_⟩
  cases resp <;> rfl

end MindMate
